import Mathlib

/-!
Verification of the execution/analysis core of the Coding_Mentor repository.

The development shallowly embeds the functions `execute_python_code`,
`execute_javascript_code`, `execute_java_code` (src/app.py) and
`analyze_python_code` with its helpers (src/code_analyzer.py).

Effectful primitives (temp-file allocation, `subprocess.run`, `os.unlink`,
`shutil.rmtree`, `json.loads` of external-tool output, `ast.parse`) are
modelled by an explicit environment record that fixes the outcome of each
primitive call; the embedded function is a pure function of that
environment.  An uncaught Python exception propagating to the caller is
modelled by the `Except.error` constructor of the returned value; the
filesystem/process side effects a call performs are recorded as an event
trace returned next to the value.
-/

namespace CodingMentor

/-- Result of a completed `subprocess.run` in text mode
(`stdout`/`stderr` already decoded to text). -/
structure ProcResult where
  stdout : String
  stderr : String
  returncode : Int
deriving DecidableEq

/-- Result of a completed `subprocess.run` in bytes mode (`text=False`):
raw byte sequences, one `Nat` (0..255) per byte. -/
structure ByteResult where
  stdoutBytes : List Nat
  stderrBytes : List Nat
  returncode : Int
deriving DecidableEq

/-- Outcome of a `subprocess.run(..., text=True, timeout=...)` call:
it can complete, raise `UnicodeDecodeError`, raise `TimeoutExpired`,
raise `FileNotFoundError` (binary absent), or raise some other exception. -/
inductive TextOutcome where
  | completed (r : ProcResult)
  | decodeError
  | timedOut
  | notFound (msg : String)
  | raised (msg : String)
deriving DecidableEq

/-- Outcome of the bytes-mode retry `subprocess.run(..., text=False, timeout=...)`
performed after a `UnicodeDecodeError`. -/
inductive BytesOutcome where
  | completed (b : ByteResult)
  | timedOut
  | notFound (msg : String)
  | raised (msg : String)
deriving DecidableEq

/-- Outcome of a version probe `subprocess.run([tool, '--version'], text=True)`;
these calls pass no `timeout=` argument, so `TimeoutExpired` cannot arise. -/
inductive ProbeOutcome where
  | completed (r : ProcResult)
  | decodeError
  | notFound (msg : String)
  | raised (msg : String)
deriving DecidableEq

/-- Outcome of the bytes-mode version probe retried after `UnicodeDecodeError`
(again without a `timeout=` argument). -/
inductive ProbeBytesOutcome where
  | completed (b : ByteResult)
  | notFound (msg : String)
  | raised (msg : String)
deriving DecidableEq

/-- The Python exceptions distinguished by the handlers in the source:
`subprocess.TimeoutExpired`, `FileNotFoundError`, and every other
`Exception` (carried with its `str(e)` message).  `UnicodeDecodeError`
never escapes a call site (each site catches it immediately), so it
needs no constructor here. -/
inductive PyExn where
  | timeoutExpired
  | fileNotFound (msg : String)
  | other (msg : String)
deriving DecidableEq

/-- Filesystem / process events a call performs, used to express
temp-artifact lifecycle properties and "step X never ran" properties. -/
inductive Event where
  | createTempFile
  | deleteTempFile
  | createTempDir
  | deleteTempDir
  | writeSource
  | probeRuntime
  | invokeInterpreter
  | invokeCompiler
deriving DecidableEq

/-- The Unicode replacement character U+FFFD. -/
def replacementChar : Char := Char.ofNat 0xFFFD

/-- Second byte of a multi-byte UTF-8 sequence: `0x80..0xBF`. -/
def isContByte (b : Nat) : Bool := 0x80 ≤ b && b < 0xC0

/-- Model of `bytes.decode('utf-8', errors='replace')`: a total UTF-8
decoder that maps every well-formed sequence to its scalar value and
substitutes U+FFFD for ill-formed input (stray continuation bytes,
overlong encodings, surrogates, values above U+10FFFF, truncations),
following CPython's maximal-subpart rule: one U+FFFD replaces the longest
prefix of the ill-formed sequence that is a prefix of some well-formed
sequence (the lead byte together with the continuation bytes already
accepted for it), and decoding resumes at the first offending byte.
A byte outside the lead-specific range of the second position (e.g.
`0x80` after `0xE0`) is not part of any such prefix, so it is
re-examined as a fresh start.  The `fuel` argument (instantiated with the
input length, which bounds the number of emitted characters) makes the
recursion structural so the definition evaluates by kernel reduction. -/
def utf8DecodeGo : Nat → List Nat → List Char
  | 0, _ => []
  | _ + 1, [] => []
  | fuel + 1, b :: rest =>
    if b < 0x80 then
      Char.ofNat b :: utf8DecodeGo fuel rest
    else if b < 0xC2 then
      -- 0x80..0xBF stray continuation; 0xC0/0xC1 would be overlong
      replacementChar :: utf8DecodeGo fuel rest
    else if b < 0xE0 then
      match rest with
      | b1 :: rest2 =>
        if isContByte b1 then
          Char.ofNat ((b - 0xC0) * 0x40 + (b1 - 0x80)) :: utf8DecodeGo fuel rest2
        else
          replacementChar :: utf8DecodeGo fuel rest
      | [] => [replacementChar]
    else if b < 0xF0 then
      match rest with
      | b1 :: rest2 =>
        if isContByte b1 && !(b == 0xE0 && b1 < 0xA0) && !(b == 0xED && 0xA0 ≤ b1) then
          match rest2 with
          | b2 :: rest3 =>
            if isContByte b2 then
              Char.ofNat ((b - 0xE0) * 0x1000 + (b1 - 0x80) * 0x40 + (b2 - 0x80)) ::
                utf8DecodeGo fuel rest3
            else
              replacementChar :: utf8DecodeGo fuel rest2
          | [] => [replacementChar]
        else
          replacementChar :: utf8DecodeGo fuel rest
      | [] => [replacementChar]
    else if b < 0xF5 then
      match rest with
      | b1 :: rest2 =>
        if isContByte b1 && !(b == 0xF0 && b1 < 0x90) && !(b == 0xF4 && 0x90 ≤ b1) then
          match rest2 with
          | b2 :: rest3 =>
            if isContByte b2 then
              match rest3 with
              | b3 :: rest4 =>
                if isContByte b3 then
                  Char.ofNat ((b - 0xF0) * 0x40000 + (b1 - 0x80) * 0x1000 +
                      (b2 - 0x80) * 0x40 + (b3 - 0x80)) :: utf8DecodeGo fuel rest4
                else
                  replacementChar :: utf8DecodeGo fuel rest3
              | [] => [replacementChar]
            else
              replacementChar :: utf8DecodeGo fuel rest2
          | [] => [replacementChar]
        else
          replacementChar :: utf8DecodeGo fuel rest
      | [] => [replacementChar]
    else
      replacementChar :: utf8DecodeGo fuel rest

/-- `bytes.decode('utf-8', errors='replace')` as a `String`. -/
def decodeUtf8Replace (bs : List Nat) : String := String.mk (utf8DecodeGo bs.length bs)

/-- Embedding of `result.stdout.decode('utf-8', errors='replace') if result.stdout else ""`:
the source returns `""` outright for an empty (falsy) byte string. -/
def decodeFieldOrEmpty (bs : List Nat) : String :=
  if bs = [] then "" else decodeUtf8Replace bs

/-- Value (or exception) produced by one source-level
`try: subprocess.run(text=True) except UnicodeDecodeError: subprocess.run(text=False)`
block: the text attempt, falling back on `UnicodeDecodeError` to the bytes
attempt whose streams are decoded with replacement (the source builds a
`MockResult` with those decoded strings; where it re-decodes only `stdout`,
the `stderr` field is never read afterwards, so decoding both is
observationally equal). -/
def callExcept (t : TextOutcome) (b : BytesOutcome) : Except PyExn ProcResult :=
  match t with
  | .completed r => .ok r
  | .timedOut => .error .timeoutExpired
  | .notFound m => .error (.fileNotFound m)
  | .raised m => .error (.other m)
  | .decodeError =>
    match b with
    | .completed br =>
        .ok ⟨decodeFieldOrEmpty br.stdoutBytes, decodeFieldOrEmpty br.stderrBytes,
          br.returncode⟩
    | .timedOut => .error .timeoutExpired
    | .notFound m => .error (.fileNotFound m)
    | .raised m => .error (.other m)

/-- Process-invocation events of such a block: one spawn attempt, or two
when the `UnicodeDecodeError` fallback reruns the command in bytes mode. -/
def callEvents (tag : Event) (t : TextOutcome) : List Event :=
  match t with
  | .decodeError => [tag, tag]
  | _ => [tag]

/-- Same as `callExcept` for the timeout-less version probes. -/
def probeExcept (t : ProbeOutcome) (b : ProbeBytesOutcome) : Except PyExn ProcResult :=
  match t with
  | .completed r => .ok r
  | .notFound m => .error (.fileNotFound m)
  | .raised m => .error (.other m)
  | .decodeError =>
    match b with
    | .completed br =>
        .ok ⟨decodeFieldOrEmpty br.stdoutBytes, decodeFieldOrEmpty br.stderrBytes,
          br.returncode⟩
    | .notFound m => .error (.fileNotFound m)
    | .raised m => .error (.other m)

/-- Spawn events of a version probe. -/
def probeEvents (t : ProbeOutcome) : List Event :=
  match t with
  | .decodeError => [.probeRuntime, .probeRuntime]
  | _ => [.probeRuntime]

/-- The outer `except subprocess.TimeoutExpired / except Exception` handler
shared (verbatim) by all three `execute_*_code` functions: every exception
of the body is converted to a `("", message)` pair, so the public function
never raises. -/
def handleExec (x : Except PyExn (String × String) × List Event) :
    Except PyExn (String × String) × List Event :=
  match x with
  | (.ok r, evs) => (.ok r, evs)
  | (.error .timeoutExpired, evs) =>
      (.ok ("", "Error: Code execution timed out (10 seconds limit)"), evs)
  | (.error (.fileNotFound m), evs) => (.ok ("", "Error: " ++ m), evs)
  | (.error (.other m), evs) => (.ok ("", "Error: " ++ m), evs)

deriving instance DecidableEq for Except

/-- `Except.isOk` as a plain Bool. -/
def exceptOk {ε α : Type} : Except ε α → Bool
  | .ok _ => true
  | .error _ => false

/-! ### `execute_python_code` (src/app.py lines 417-469) -/

/-- Outcomes of the effectful primitives used by one `execute_python_code`
call: temp-file creation+write (`tempfile.NamedTemporaryFile` block),
the interpreter invocation (text mode, with bytes-mode retry), and
`os.unlink`.  An `Except.error m` outcome means the primitive raised an
OSError-like exception with message `m`. -/
structure PyRunEnv where
  createTemp : Except String Unit
  runText : TextOutcome
  runBytes : BytesOutcome
  unlink : Except String Unit

/-- Body of `execute_python_code` (the code inside the outer `try`):
create the temp file, run the interpreter on it (with the
`UnicodeDecodeError` bytes fallback), unlink the temp file, and return
`(result.stdout, result.stderr)`.  Note the source unlinks only on this
normal path: an exception jumps straight to the outer handler. -/
def execute_python_body (env : PyRunEnv) : Except PyExn (String × String) × List Event :=
  match env.createTemp with
  | .error m => (.error (.other m), [])
  | .ok _ =>
    let evs := Event.createTempFile :: callEvents .invokeInterpreter env.runText
    match callExcept env.runText env.runBytes with
    | .error e => (.error e, evs)
    | .ok r =>
      match env.unlink with
      | .error m => (.error (.other m), evs)
      | .ok _ => (.ok (r.stdout, r.stderr), evs ++ [Event.deleteTempFile])

/-- `execute_python_code(code)`: the body wrapped in the outer
`except subprocess.TimeoutExpired / except Exception` handler. -/
def execute_python_code (env : PyRunEnv) (_code : String) :
    Except PyExn (String × String) × List Event :=
  handleExec (execute_python_body env)

/-! ### `execute_javascript_code` (src/app.py lines 471-542) -/

/-- Outcomes of the primitives used by one `execute_javascript_code` call:
the `node --version` probe (with bytes retry), temp-file creation, the
`node <file>` invocation (with bytes retry), and `os.unlink`. -/
structure JsRunEnv where
  probeText : ProbeOutcome
  probeBytes : ProbeBytesOutcome
  createTemp : Except String Unit
  runText : TextOutcome
  runBytes : BytesOutcome
  unlink : Except String Unit

/-- Body of `execute_javascript_code`: probe Node, return early with a
fixed message when the probe exits non-zero, otherwise write the temp
file, run it, unlink, and return the captured streams. -/
def execute_javascript_body (env : JsRunEnv) :
    Except PyExn (String × String) × List Event :=
  match probeExcept env.probeText env.probeBytes with
  | .error e => (.error e, probeEvents env.probeText)
  | .ok nodeCheck =>
    if nodeCheck.returncode != 0 then
      (.ok ("", "Error: Node.js is not installed or not in PATH"),
        probeEvents env.probeText)
    else
      match env.createTemp with
      | .error m => (.error (.other m), probeEvents env.probeText)
      | .ok _ =>
        let evs := probeEvents env.probeText ++ Event.createTempFile ::
          callEvents .invokeInterpreter env.runText
        match callExcept env.runText env.runBytes with
        | .error e => (.error e, evs)
        | .ok r =>
          match env.unlink with
          | .error m => (.error (.other m), evs)
          | .ok _ => (.ok (r.stdout, r.stderr), evs ++ [Event.deleteTempFile])

/-- `execute_javascript_code(code)`: the body wrapped in the shared outer
exception handler. -/
def execute_javascript_code (env : JsRunEnv) (_code : String) :
    Except PyExn (String × String) × List Event :=
  handleExec (execute_javascript_body env)

/-! ### `execute_java_code` (src/app.py lines 544-651) -/

/-- Python `\s` on the ASCII fragment: space, tab, newline, carriage
return, vertical tab, form feed.  (The source pattern is Unicode-aware;
all inputs considered here are ASCII.) -/
def isPyWs (c : Char) : Bool :=
  c = ' ' || c = '\t' || c = '\n' || c = '\r' || c = Char.ofNat 11 || c = Char.ofNat 12

/-- Python `\w` on the ASCII fragment: letters, digits, underscore. -/
def isPyWordChar (c : Char) : Bool := c.isAlphanum || c = '_'

/-- Match a literal character list at the head of the input, returning the
remainder on success. -/
def matchLit : List Char → List Char → Option (List Char)
  | [], cs => some cs
  | _ :: _, [] => none
  | p :: ps, c :: cs => if c = p then matchLit ps cs else none

/-- Match the regex `public\s+class\s+(\w+)` anchored at the head of the
input, returning the captured class name.  Each `\s+` is consumed
greedily; since whitespace never begins the following literal or a word
character, greedy matching coincides with backtracking here. -/
def matchPublicClassAt (cs : List Char) : Option (List Char) := do
  let cs1 ← matchLit "public".toList cs
  let ws1 := cs1.takeWhile isPyWs
  if ws1 = [] then none else
  let cs2 := cs1.dropWhile isPyWs
  let cs3 ← matchLit "class".toList cs2
  let ws2 := cs3.takeWhile isPyWs
  if ws2 = [] then none else
  let cs4 := cs3.dropWhile isPyWs
  let name := cs4.takeWhile isPyWordChar
  if name = [] then none else some name

/-- `re.search`: try the pattern at each start position, first match wins. -/
def searchPublicClass : List Char → Option (List Char)
  | [] => none
  | c :: cs =>
    match matchPublicClassAt (c :: cs) with
    | some n => some n
    | none => searchPublicClass cs

/-- Embedding of `re.search(r'public\s+class\s+(\w+)', code)` from
`execute_java_code`, returning group 1. -/
def extractPublicClass (code : String) : Option String :=
  (searchPublicClass code.toList).map String.mk

/-- Outcomes of the primitives used by one `execute_java_code` call:
the `java --version` probe, `tempfile.mkdtemp`, the source-file write,
the `javac` invocation, the `java -cp` invocation (each with its bytes
retry), and `shutil.rmtree`. -/
structure JavaRunEnv where
  probeText : ProbeOutcome
  probeBytes : ProbeBytesOutcome
  mkdtemp : Except String Unit
  writeFile : Except String Unit
  compileText : TextOutcome
  compileBytes : BytesOutcome
  runText : TextOutcome
  runBytes : BytesOutcome
  rmtree : Except String Unit

/-- Body of `execute_java_code`: probe Java; extract the public class name
from the source (fail fast when absent, before any temp artifact is
created); create the temp directory and write `<Name>.java`; compile,
returning immediately on a non-zero compiler exit (without running and
without deleting the temp directory); run the class; delete the temp
directory; return the captured streams. -/
def execute_java_body (env : JavaRunEnv) (code : String) :
    Except PyExn (String × String) × List Event :=
  match probeExcept env.probeText env.probeBytes with
  | .error e => (.error e, probeEvents env.probeText)
  | .ok javaCheck =>
    if javaCheck.returncode != 0 then
      (.ok ("", "Error: Java is not installed or not in PATH"),
        probeEvents env.probeText)
    else
      match extractPublicClass code with
      | none =>
          (.ok ("", "Error: No public class found in Java code"),
            probeEvents env.probeText)
      | some _ =>
        match env.mkdtemp with
        | .error m => (.error (.other m), probeEvents env.probeText)
        | .ok _ =>
          match env.writeFile with
          | .error m =>
              (.error (.other m), probeEvents env.probeText ++ [Event.createTempDir])
          | .ok _ =>
            let evs1 := probeEvents env.probeText ++ Event.createTempDir ::
              Event.writeSource :: callEvents .invokeCompiler env.compileText
            match callExcept env.compileText env.compileBytes with
            | .error e => (.error e, evs1)
            | .ok compileResult =>
              if compileResult.returncode != 0 then
                (.ok ("", "Compilation Error: " ++ compileResult.stderr), evs1)
              else
                let evs2 := evs1 ++ callEvents .invokeInterpreter env.runText
                match callExcept env.runText env.runBytes with
                | .error e => (.error e, evs2)
                | .ok runResult =>
                  match env.rmtree with
                  | .error m => (.error (.other m), evs2)
                  | .ok _ =>
                      (.ok (runResult.stdout, runResult.stderr),
                        evs2 ++ [Event.deleteTempDir])

/-- `execute_java_code(code)`: the body wrapped in the shared outer
exception handler. -/
def execute_java_code (env : JavaRunEnv) (code : String) :
    Except PyExn (String × String) × List Event :=
  handleExec (execute_java_body env code)

/-! ### String helpers shared by the analyzer embedding -/

/-- Python `str.strip()` on a character list (ASCII whitespace fragment). -/
def pyStripChars (cs : List Char) : List Char :=
  ((cs.dropWhile isPyWs).reverse.dropWhile isPyWs).reverse

/-- Python `str.strip()`. -/
def pyStrip (s : String) : String := String.mk (pyStripChars s.toList)

/-- Python `str.split(sep, maxsplit)` for a one-character separator:
at most `fuel` splits, empty string yields `[""]`. -/
def splitCharMax (sep : Char) (fuel : Nat) (cs : List Char) : List (List Char) :=
  match fuel, cs with
  | _, [] => [[]]
  | 0, cs => [cs]
  | fuel + 1, c :: rest =>
    if c = sep then [] :: splitCharMax sep fuel rest
    else
      match splitCharMax sep (fuel + 1) rest with
      | [] => [[c]]
      | p :: ps => (c :: p) :: ps
termination_by structural cs

/-- Digit run to a number; `none` when empty or a non-digit occurs. -/
def digitsToNat (ds : List Char) : Option Nat :=
  if ds = [] then none
  else if ds.all Char.isDigit then
    some (ds.foldl (fun a c => a * 10 + (c.toNat - 48)) 0)
  else none

/-- Python `int(s)` as used on flake8 output fields: surrounding
whitespace is ignored, an optional sign precedes a digit run; anything
else raises `ValueError`, modelled as `none`.  (Underscore separators are
not modelled; no tool output contains them.) -/
def pyIntOpt (s : String) : Option Int :=
  match pyStripChars s.toList with
  | [] => none
  | '+' :: ds => (digitsToNat ds).map Int.ofNat
  | '-' :: ds => (digitsToNat ds).map (fun n => -(n : Int))
  | ds => (digitsToNat ds).map Int.ofNat

/-! ### `run_flake8_analysis` (src/code_analyzer.py lines 54-177) -/

/-- One entry of the `lint_issues` list. -/
structure LintIssue where
  line : Int
  column : Int
  message : String
  code : String
deriving DecidableEq

/-- One element of parsed flake8 JSON output; each field is read with
`.get(key, default)`. -/
structure Flake8JsonItem where
  line_number : Option Int
  column_number : Option Int
  text : Option String
  code : Option String
deriving DecidableEq

/-- Embedding of `parse_flake8_standard_output` applied to one line:
skip blank lines, `line.split(':', 3)`, require at least four parts,
`int()` the line and column (a `ValueError` skips the line), then split
the stripped remainder on the first space into `code` and `message`. -/
def parseFlake8Line (line : String) : Option LintIssue :=
  if pyStrip line = "" then none
  else
    match (splitCharMax ':' 3 line.toList).map String.mk with
    | _ :: p1 :: p2 :: p3 :: _ =>
      match pyIntOpt p1, pyIntOpt p2 with
      | some lineNum, some colNum =>
        let stripped := pyStrip p3
        let messageParts := (splitCharMax ' ' 1 stripped.toList).map String.mk
        let code := messageParts.headD ""
        let message :=
          match messageParts with
          | _ :: m :: _ => m
          | _ => stripped
        some ⟨lineNum, colNum, message, code⟩
      | _, _ => none
    | _ => none

/-- Python `str.split(sep)` without a maxsplit bound, on a
one-character separator. -/
def splitAllChar (sep : Char) (cs : List Char) : List (List Char) :=
  match cs with
  | [] => [[]]
  | c :: rest =>
    if c = sep then [] :: splitAllChar sep rest
    else
      match splitAllChar sep rest with
      | [] => [[c]]
      | p :: ps => (c :: p) :: ps

/-- `parse_flake8_standard_output(output)`: strip, split into lines,
parse each, skipping lines that do not fit. -/
def parse_flake8_standard_output (output : String) : List LintIssue :=
  ((splitAllChar '\n' (pyStripChars output.toList)).map String.mk).filterMap
    parseFlake8Line

/-- Outcomes of the primitives used by one `run_flake8_analysis` call:
the `flake8 --format=json` invocation (with bytes retry), the
`json.loads` of its stdout (`none` models `json.JSONDecodeError`; the
parsed value is abstracted as the list of issue records), and the plain
`flake8` retry invocation. -/
structure Flake8Env where
  jsonRunText : TextOutcome
  jsonRunBytes : BytesOutcome
  jsonParse : Option (List Flake8JsonItem)
  stdRunText : TextOutcome
  stdRunBytes : BytesOutcome

/-- The sentinel issue appended by the `except` handlers of
`run_flake8_analysis`. -/
def flake8Sentinel : PyExn → LintIssue
  | .timeoutExpired => ⟨0, 0, "Flake8 analysis timed out", "TIMEOUT"⟩
  | .fileNotFound _ => ⟨0, 0, "Flake8 not installed. Install with: pip install flake8", "MISSING"⟩
  | .other m => ⟨0, 0, "Flake8 analysis failed: " ++ m, "ERROR"⟩

/-- `run_flake8_analysis(file_path)`: run flake8 with JSON output and
parse it (falling back to the plain-text parser on `JSONDecodeError`);
when no issue was produced and the exit code is non-zero, rerun in plain
format and parse; every exception is converted to a single sentinel
issue, so the function is total. -/
def run_flake8_analysis (env : Flake8Env) : List LintIssue :=
  match callExcept env.jsonRunText env.jsonRunBytes with
  | .error e => [flake8Sentinel e]
  | .ok result =>
    let issues :=
      if result.stdout != "" then
        match env.jsonParse with
        | some items =>
            items.map fun item =>
              ⟨item.line_number.getD 0, item.column_number.getD 0,
                item.text.getD "", item.code.getD ""⟩
        | none => parse_flake8_standard_output result.stdout
      else []
    if issues = [] && result.returncode != 0 then
      match callExcept env.stdRunText env.stdRunBytes with
      | .error e => [flake8Sentinel e]
      | .ok result2 => parse_flake8_standard_output result2.stdout
    else issues

/-! ### `run_black_analysis` (src/code_analyzer.py lines 179-254) -/

/-- Outcomes of the primitives used by one `run_black_analysis` call:
the `black --diff -` invocation and, when a diff is reported, the
`black -` full-format invocation (each with its bytes retry). -/
structure BlackEnv where
  diffText : TextOutcome
  diffBytes : BytesOutcome
  fmtText : TextOutcome
  fmtBytes : BytesOutcome

/-- `run_black_analysis(code) -> (formatted_code, formatting_needed)`:
run the diff preview; `formatting_needed` is truthiness of the stripped
diff stdout; when needed, a second call supplies the formatted code
(degrading to the input on a non-zero exit); every exception anywhere in
the body — including in the second call — returns `(code, False)`. -/
def run_black_analysis (env : BlackEnv) (code : String) : String × Bool :=
  match callExcept env.diffText env.diffBytes with
  | .error _ => (code, false)
  | .ok result =>
    let formattingNeeded := pyStrip result.stdout != ""
    if formattingNeeded then
      match callExcept env.fmtText env.fmtBytes with
      | .error _ => (code, false)
      | .ok formatResult =>
        ((if formatResult.returncode == 0 then formatResult.stdout else code), true)
    else (code, formattingNeeded)

/-! ### `basic_ast_analysis` (src/code_analyzer.py lines 353-388) -/

/-- Abstract syntax of the analyzed Python source as far as
`basic_ast_analysis` observes it: the four counted statement forms with
their child-statement blocks, and `other` for every remaining node kind
(expressions, assignments, `with`, async forms, the `Module` root, ...),
which contributes only its children. -/
inductive PyNode where
  | functionDef (body : List PyNode)
  | classDef (body : List PyNode)
  | ifStmt (body orelse : List PyNode)
  | forStmt (body orelse : List PyNode)
  | whileStmt (body orelse : List PyNode)
  | tryStmt (body handlers orelse finalbody : List PyNode)
  | other (children : List PyNode)

mutual
/-- `ast.walk`: the node followed by the walks of all its descendants
(the traversal order does not matter to the counts taken of it). -/
def pyWalk : PyNode → List PyNode
  | .functionDef b => .functionDef b :: pyWalkList b
  | .classDef b => .classDef b :: pyWalkList b
  | .ifStmt b e => .ifStmt b e :: (pyWalkList b ++ pyWalkList e)
  | .forStmt b e => .forStmt b e :: (pyWalkList b ++ pyWalkList e)
  | .whileStmt b e => .whileStmt b e :: (pyWalkList b ++ pyWalkList e)
  | .tryStmt b h e f =>
      .tryStmt b h e f ::
        (pyWalkList b ++ pyWalkList h ++ pyWalkList e ++ pyWalkList f)
  | .other c => .other c :: pyWalkList c

/-- `ast.walk` over a block of statements. -/
def pyWalkList : List PyNode → List PyNode
  | [] => []
  | n :: rest => pyWalk n ++ pyWalkList rest
end

/-- `isinstance(node, ast.FunctionDef)`. -/
def isFunctionDefNode : PyNode → Bool
  | .functionDef _ => true
  | _ => false

/-- `isinstance(node, ast.ClassDef)`. -/
def isClassDefNode : PyNode → Bool
  | .classDef _ => true
  | _ => false

/-- `isinstance(node, (ast.If, ast.For, ast.While, ast.Try))`. -/
def isControlFlowNode : PyNode → Bool
  | .ifStmt _ _ => true
  | .forStmt _ _ => true
  | .whileStmt _ _ => true
  | .tryStmt _ _ _ _ => true
  | _ => false

/-- Number of `ast.FunctionDef` nodes in the walk of the tree. -/
def functionDefCount (tree : PyNode) : Nat :=
  ((pyWalk tree).filter isFunctionDefNode).length

/-- Number of `ast.ClassDef` nodes in the walk of the tree. -/
def classDefCount (tree : PyNode) : Nat :=
  ((pyWalk tree).filter isClassDefNode).length

/-- Number of `If`/`For`/`While`/`Try` nodes in the walk of the tree. -/
def controlFlowCount (tree : PyNode) : Nat :=
  ((pyWalk tree).filter isControlFlowNode).length

/-- Outcome of `open(file_path).read()` followed by `ast.parse(code)` in
`basic_ast_analysis`: either the parsed tree (rooted at the `Module`
node, represented as `PyNode.other body`) or an exception message. -/
inductive BasicAstOutcome where
  | parsed (tree : PyNode)
  | failed (msg : String)

/-- The dictionary returned by `basic_ast_analysis`: either the five
metric entries, or the single `error` entry from its `except` handler. -/
inductive BasicResult where
  | metrics (function_count class_count control_flow_count estimated_complexity : Nat)
  | failed (msg : String)
deriving DecidableEq

/-- `basic_ast_analysis(file_path)`: read and parse the source, count
function definitions, class definitions and `If`/`For`/`While`/`Try`
nodes over `ast.walk`, and report
`estimated_complexity = len(control_flow) + len(functions)`; any
exception yields an error entry instead. -/
def basic_ast_analysis : BasicAstOutcome → BasicResult
  | .failed m => .failed ("Basic AST analysis failed: " ++ m)
  | .parsed tree =>
      .metrics (functionDefCount tree) (classDefCount tree) (controlFlowCount tree)
        (controlFlowCount tree + functionDefCount tree)

/-! ### `run_radon_analysis` (src/code_analyzer.py lines 256-351) -/

/-- One element of the per-function listing in radon `cc -j` output;
the source reads `func.get('complexity', 0)`. -/
structure RadonFunc where
  complexity : Option Int
deriving DecidableEq

/-- The `complexity_data` dictionary assembled by `run_radon_analysis`
(possibly updated by `basic_ast_analysis`): each possible key is an
optional field, `none` meaning the key is absent from the dict. -/
structure ComplexityData where
  complexity : Option Rat
  max_complexity : Option Int
  function_count : Option Nat
  maintainability : Option Rat
  error : Option String
  class_count : Option Nat
  control_flow_count : Option Nat
  estimated_complexity : Option Nat
  analysis_type : Option String
deriving DecidableEq

/-- The initial `complexity_data = {}`. -/
def emptyComplexityData : ComplexityData :=
  ⟨none, none, none, none, none, none, none, none, none⟩

/-- Python truthiness test `not complexity_data`: the dict has no key. -/
def ComplexityData.isEmptyDict (d : ComplexityData) : Bool :=
  d.complexity.isNone && d.max_complexity.isNone && d.function_count.isNone &&
    d.maintainability.isNone && d.error.isNone && d.class_count.isNone &&
    d.control_flow_count.isNone && d.estimated_complexity.isNone &&
    d.analysis_type.isNone

/-- The message stored under `complexity_data['error']` by each `except`
handler of `run_radon_analysis`. -/
def radonErrMsg : PyExn → String
  | .timeoutExpired => "Radon analysis timed out"
  | .fileNotFound _ => "Radon not installed. Install with: pip install radon"
  | .other m => "Radon analysis failed: " ++ m

/-- `sum(complexities) / len(complexities)` (Python float division,
modelled exactly over the rationals). -/
def listMeanRat (xs : List Int) : Rat :=
  ((xs.map (fun x => (x : Rat))).sum) / (xs.length : Rat)

/-- Python `max` over a non-empty integer list (`0` for the empty list,
matching the source conditional `... if complexities else 0`). -/
def listMaxInt : List Int → Int
  | [] => 0
  | x :: rest => rest.foldl max x

/-- `complexity_data.update(basic_ast_analysis(file_path))`: the metric
entries (or the error entry) of the basic result overwrite the
corresponding keys, leaving all other keys in place. -/
def updateBasic (d : ComplexityData) : BasicResult → ComplexityData
  | .metrics fc cc cf est =>
      { d with
          function_count := some fc
          class_count := some cc
          control_flow_count := some cf
          estimated_complexity := some est
          analysis_type := some "basic_ast" }
  | .failed m => { d with error := some m }

/-- Outcomes of the primitives used by one `run_radon_analysis` call:
the `radon cc -j` invocation (with bytes retry) and the `json.loads` of
its stdout (`none` = `JSONDecodeError`; `some none` = `file_path` not a
key of the parsed dict; `some (some funcs)` = the per-function listing),
the `radon mi -j` invocation likewise (`some (some v)` = the `mi` value
read with `.get('mi', 0)` from the entry at `file_path`), and the
parse outcome consumed by the `basic_ast_analysis` fallback. -/
structure RadonEnv where
  ccText : TextOutcome
  ccBytes : BytesOutcome
  ccParse : Option (Option (List RadonFunc))
  miText : TextOutcome
  miBytes : BytesOutcome
  miParse : Option (Option (Option Rat))
  ast : BasicAstOutcome

/-- The single `try` of `run_radon_analysis`: the cc step then — only
when the cc step did not raise — the mi step; an exception from either
leaves the keys assembled so far and adds the handler's `error` entry. -/
def radonTryBlock (env : RadonEnv) : ComplexityData :=
  match callExcept env.ccText env.ccBytes with
  | .error e => { emptyComplexityData with error := some (radonErrMsg e) }
  | .ok ccResult =>
    let d1 :=
      if ccResult.returncode == 0 && ccResult.stdout != "" then
        match env.ccParse with
        | none => emptyComplexityData
        | some none => emptyComplexityData
        | some (some functions) =>
          if functions ≠ [] then
            let complexities := functions.map fun f => f.complexity.getD 0
            { emptyComplexityData with
                complexity :=
                  some (if complexities ≠ [] then listMeanRat complexities else 0)
                max_complexity :=
                  some (if complexities ≠ [] then listMaxInt complexities else 0)
                function_count := some functions.length }
          else emptyComplexityData
      else emptyComplexityData
    match callExcept env.miText env.miBytes with
    | .error e => { d1 with error := some (radonErrMsg e) }
    | .ok miResult =>
      if miResult.returncode == 0 && miResult.stdout != "" then
        match env.miParse with
        | none => d1
        | some none => d1
        | some (some mi) => { d1 with maintainability := some (mi.getD 0) }
      else d1

/-- `run_radon_analysis(file_path)`: the try block, then — when the dict
is empty or carries an `error` key — `complexity_data.update(basic_ast_analysis(file_path))`
(whose own exceptions the source swallows with `pass`; the embedded
`basic_ast_analysis` is total, so the update always lands). -/
def run_radon_analysis (env : RadonEnv) : ComplexityData :=
  let d := radonTryBlock env
  if d.isEmptyDict || d.error.isSome then updateBasic d (basic_ast_analysis env.ast)
  else d

/-! ### `analyze_python_code` (src/code_analyzer.py lines 13-52) -/

/-- The dictionary returned by `analyze_python_code`. -/
structure AnalysisResult where
  lint_issues : List LintIssue
  formatting_needed : Bool
  formatted_code : String
  complexity : ComplexityData
deriving DecidableEq

/-- Outcomes of the primitives used by one `analyze_python_code` call:
temp-file creation (outside any `try` in the source), the three
analyzer sub-environments, and the `os.unlink` of the `finally` block. -/
structure AnalyzeEnv where
  createTemp : Except String Unit
  flake8 : Flake8Env
  black : BlackEnv
  radon : RadonEnv
  unlink : Except String Unit

/-- `analyze_python_code(code)`: create the temp file (a failure here
precedes the `try` and propagates), run the three analyses (each total),
then `finally` unlink the temp file (the `os.path.exists` guard is true
since the file was just created; an `unlink` failure propagates).  The
sub-analyses feed the fields of the result dict. -/
def analyze_python_code (env : AnalyzeEnv) (code : String) :
    Except PyExn AnalysisResult × List Event :=
  match env.createTemp with
  | .error m => (.error (.other m), [])
  | .ok _ =>
    let lintIssues := run_flake8_analysis env.flake8
    let blackResult := run_black_analysis env.black code
    let complexity := run_radon_analysis env.radon
    match env.unlink with
    | .error m => (.error (.other m), [Event.createTempFile])
    | .ok _ =>
        (.ok ⟨lintIssues, blackResult.2, blackResult.1, complexity⟩,
          [Event.createTempFile, Event.deleteTempFile])

/-! ### Concrete fixture environments used by witnesses and counterexamples -/

/-- A concrete environment whose radon cc output parses to a two-function
listing with complexities 3 and 5. -/
def c8WitEnv : AnalyzeEnv :=
  ⟨.ok (), ⟨.completed ⟨"", "", 0⟩, .timedOut, none, .timedOut, .timedOut⟩,
    ⟨.completed ⟨"", "", 0⟩, .timedOut, .completed ⟨"", "", 0⟩, .timedOut⟩,
    ⟨.completed ⟨"cc-json", "", 0⟩, .timedOut, some (some [⟨some 3⟩, ⟨some 5⟩]),
      .completed ⟨"mi-json", "", 0⟩, .timedOut, some (some (some 50)),
      .failed "unused"⟩,
    .ok ()⟩

/-- The analysis result at `c8WitEnv` (the statistics left in their
defeq-unevaluated form so the equation holds by `rfl`). -/
def c8WitRes : AnalysisResult :=
  ⟨[], false, "x = 1",
    ⟨some (listMeanRat [3, 5]), some (listMaxInt [3, 5]), some 2, some 50,
      none, none, none, none, none⟩⟩

/-- A concrete environment whose radon cc output parses to an *empty*
function listing while the maintainability step succeeds. -/
def c8CounterEnv : AnalyzeEnv :=
  ⟨.ok (), ⟨.completed ⟨"", "", 0⟩, .timedOut, none, .timedOut, .timedOut⟩,
    ⟨.completed ⟨"", "", 0⟩, .timedOut, .completed ⟨"", "", 0⟩, .timedOut⟩,
    ⟨.completed ⟨"cc-json", "", 0⟩, .timedOut, some (some []),
      .completed ⟨"mi-json", "", 0⟩, .timedOut, some (some (some 50)),
      .failed "unused"⟩,
    .ok ()⟩

/-- A concrete environment where radon is absent and the source parses to
one function definition containing one conditional. -/
def c9WitEnv : AnalyzeEnv :=
  ⟨.ok (), ⟨.completed ⟨"", "", 0⟩, .timedOut, none, .timedOut, .timedOut⟩,
    ⟨.completed ⟨"", "", 0⟩, .timedOut, .completed ⟨"", "", 0⟩, .timedOut⟩,
    ⟨.notFound "radon", .timedOut, none, .timedOut, .timedOut, none,
      .parsed (.other [.functionDef [.ifStmt [.other []] []]])⟩,
    .ok ()⟩

/-- The analysis result at `c9WitEnv`. -/
def c9WitRes : AnalysisResult :=
  ⟨[], false, "x = 1",
    ⟨none, none, some 1, none,
      some "Radon not installed. Install with: pip install radon",
      some 0, some 1, some 2, some "basic_ast"⟩⟩

/-- A concrete environment whose formatter diff preview is empty. -/
def c10WitEnv : AnalyzeEnv :=
  ⟨.ok (), ⟨.completed ⟨"", "", 0⟩, .timedOut, none, .timedOut, .timedOut⟩,
    ⟨.completed ⟨"", "", 0⟩, .timedOut, .completed ⟨"", "", 0⟩, .timedOut⟩,
    ⟨.completed ⟨"cc-json", "", 0⟩, .timedOut, some none,
      .completed ⟨"mi-json", "", 0⟩, .timedOut, some (some (some 50)),
      .failed "unused"⟩,
    .ok ()⟩

/-! ### Helper lemmas -/

/-- The shared outer handler of the `execute_*_code` functions maps every
body outcome, exceptional or not, to an `ok` result. -/
theorem handleExec_fst_isOk (x : Except PyExn (String × String) × List Event) :
    exceptOk (handleExec x).1 = true := by
  obtain ⟨r, evs⟩ := x
  cases r with
  | ok v => rfl
  | error e => cases e <;> rfl

/-- Every event of a version probe is the probe event. -/
theorem probeEvents_mem {t : ProbeOutcome} {ev : Event} (h : ev ∈ probeEvents t) :
    ev = Event.probeRuntime := by
  cases t <;> simp [probeEvents] at h <;> simp [h]

/-- Every event of a guarded subprocess call is its tag. -/
theorem callEvents_mem {tag : Event} {t : TextOutcome} {ev : Event}
    (h : ev ∈ callEvents tag t) : ev = tag := by
  cases t <;> simp [callEvents] at h <;> simp [h]

/-- When `run_black_analysis` reports no formatting needed, it returns the
input source unchanged: every path producing `False` carries `code`. -/
theorem run_black_needed_false (env : BlackEnv) (code : String)
    (h : (run_black_analysis env code).2 = false) :
    (run_black_analysis env code).1 = code := by
  unfold run_black_analysis at *
  cases hd : callExcept env.diffText env.diffBytes with
  | error e => simp [hd]
  | ok result =>
    simp only [hd] at h ⊢
    by_cases hn : (pyStrip result.stdout != "") = true
    · simp only [hn, if_true] at h ⊢
      cases hf : callExcept env.fmtText env.fmtBytes with
      | error e => simp [hf]
      | ok fr => simp [hf] at h
    · simp only [Bool.not_eq_true] at hn
      simp [hn]

/-! ### Claims -/

/-- C1 (amended): each of the three `execute_*_code` functions returns a
structured result and never raises, for every outcome of its effectful
primitives (its whole body sits inside `try/except Exception`);
`analyze_python_code` never raises provided its temp-file creation and
final deletion succeed — those two steps sit outside the `try`/inside the
`finally`, so their failures propagate, while every analyzer-tool failure
is encoded in the returned result. -/
theorem C1_total_amended :
    (∀ (env : PyRunEnv) (code : String),
        exceptOk (execute_python_code env code).1 = true) ∧
    (∀ (env : JsRunEnv) (code : String),
        exceptOk (execute_javascript_code env code).1 = true) ∧
    (∀ (env : JavaRunEnv) (code : String),
        exceptOk (execute_java_code env code).1 = true) ∧
    (∀ (env : AnalyzeEnv) (code : String),
        env.createTemp = .ok () → env.unlink = .ok () →
        exceptOk (analyze_python_code env code).1 = true) := by
  refine ⟨fun env code => ?_, fun env code => ?_, fun env code => ?_,
    fun env code h1 h2 => ?_⟩
  · exact handleExec_fst_isOk (execute_python_body env)
  · exact handleExec_fst_isOk (execute_javascript_body env)
  · exact handleExec_fst_isOk (execute_java_body env code)
  · simp [analyze_python_code, h1, h2, exceptOk]

/-- Witness for C1: the amended totality at a concrete environment. -/
theorem C1_total_witness :
    exceptOk (analyze_python_code
      ⟨.ok (), ⟨.completed ⟨"", "", 0⟩, .timedOut, none, .timedOut, .timedOut⟩,
        ⟨.completed ⟨"", "", 0⟩, .timedOut, .completed ⟨"", "", 0⟩, .timedOut⟩,
        ⟨.completed ⟨"{}", "", 0⟩, .timedOut, some none, .completed ⟨"{}", "", 0⟩,
          .timedOut, some none, .failed "syntax"⟩,
        .ok ()⟩ "x = 1").1 = true :=
  C1_total_amended.2.2.2 _ "x = 1" rfl rfl

/-- Counterexample for C1 as stated: when temp-file creation raises (an
internal harness error), `analyze_python_code` propagates the exception
to its caller instead of encoding it in the result. -/
theorem C1_counterexample :
    (analyze_python_code
      ⟨.error "disk full", ⟨.timedOut, .timedOut, none, .timedOut, .timedOut⟩,
        ⟨.timedOut, .timedOut, .timedOut, .timedOut⟩,
        ⟨.timedOut, .timedOut, none, .timedOut, .timedOut, none, .failed "x"⟩,
        .ok ()⟩ "x = 1").1 = .error (.other "disk full") := by decide

/-- C2 (amended): `analyze_python_code` deletes its temp file on every
exit path (its cleanup sits in a `finally`), whenever the deletion call
itself succeeds; each `execute_*_code` deletes its temp artifact only on
the path where every child-process step completed without raising — the
timeout and internal-error paths return from the handler without
cleanup. -/
theorem C2_cleanup_amended :
    (∀ (env : AnalyzeEnv) (code : String),
        env.createTemp = .ok () → env.unlink = .ok () →
        Event.deleteTempFile ∈ (analyze_python_code env code).2) ∧
    (∀ (env : PyRunEnv) (code : String) (r : ProcResult),
        env.createTemp = .ok () →
        callExcept env.runText env.runBytes = .ok r → env.unlink = .ok () →
        Event.deleteTempFile ∈ (execute_python_code env code).2) ∧
    (∀ (env : JsRunEnv) (code : String) (pr r : ProcResult),
        probeExcept env.probeText env.probeBytes = .ok pr → pr.returncode = 0 →
        env.createTemp = .ok () →
        callExcept env.runText env.runBytes = .ok r → env.unlink = .ok () →
        Event.deleteTempFile ∈ (execute_javascript_code env code).2) ∧
    (∀ (env : JavaRunEnv) (code : String) (pr cr rr : ProcResult) (name : String),
        probeExcept env.probeText env.probeBytes = .ok pr → pr.returncode = 0 →
        extractPublicClass code = some name →
        env.mkdtemp = .ok () → env.writeFile = .ok () →
        callExcept env.compileText env.compileBytes = .ok cr → cr.returncode = 0 →
        callExcept env.runText env.runBytes = .ok rr → env.rmtree = .ok () →
        Event.deleteTempDir ∈ (execute_java_code env code).2) := by
  refine ⟨fun env code h1 h2 => ?_, fun env code r h1 h2 h3 => ?_,
    fun env code pr r hp hrc h1 h2 h3 => ?_,
    fun env code pr cr rr name hp hrc hx h1 h2 hc hcrc hr h3 => ?_⟩
  · simp [analyze_python_code, h1, h2]
  · simp [execute_python_code, execute_python_body, handleExec, h1, h2, h3]
  · simp [execute_javascript_code, execute_javascript_body, handleExec, hp, hrc, h1, h2, h3]
  · simp [execute_java_code, execute_java_body, handleExec, hp, hrc, hx, h1, h2, hc,
      hcrc, hr, h3]

/-- Witness for C2: cleanup events at concrete environments. -/
theorem C2_cleanup_witness :
    Event.deleteTempFile ∈ (execute_python_code
      ⟨.ok (), .completed ⟨"hi", "", 0⟩, .timedOut, .ok ()⟩ "print(1)").2 :=
  C2_cleanup_amended.2.1 _ "print(1)" ⟨"hi", "", 0⟩ rfl rfl rfl

/-- Counterexample for C2 as stated: on the timeout path of
`execute_python_code` the temp file was created but never deleted — the
call returns the timeout result while the artifact remains on disk. -/
theorem C2_counterexample :
    (execute_python_code ⟨.ok (), .timedOut, .timedOut, .ok ()⟩
        "while True: pass").1 =
      .ok ("", "Error: Code execution timed out (10 seconds limit)") ∧
    Event.createTempFile ∈
      (execute_python_code ⟨.ok (), .timedOut, .timedOut, .ok ()⟩
        "while True: pass").2 ∧
    Event.deleteTempFile ∉
      (execute_python_code ⟨.ok (), .timedOut, .timedOut, .ok ()⟩
        "while True: pass").2 := by decide

/-- C3: whenever a timeout-guarded child-process step raises
`TimeoutExpired` — the Python interpreter run, the JavaScript runtime
run, the Java compile step, or the Java execution step — the enclosing
`execute_*_code` returns stdout `""` together with the fixed explanatory
message; no partial output of the child survives into the result. -/
theorem C3_timeout_fixed_message :
    (∀ (env : PyRunEnv) (code : String), env.createTemp = .ok () →
        callExcept env.runText env.runBytes = .error .timeoutExpired →
        (execute_python_code env code).1 =
          .ok ("", "Error: Code execution timed out (10 seconds limit)")) ∧
    (∀ (env : JsRunEnv) (code : String) (pr : ProcResult),
        probeExcept env.probeText env.probeBytes = .ok pr → pr.returncode = 0 →
        env.createTemp = .ok () →
        callExcept env.runText env.runBytes = .error .timeoutExpired →
        (execute_javascript_code env code).1 =
          .ok ("", "Error: Code execution timed out (10 seconds limit)")) ∧
    (∀ (env : JavaRunEnv) (code : String) (pr : ProcResult) (name : String),
        probeExcept env.probeText env.probeBytes = .ok pr → pr.returncode = 0 →
        extractPublicClass code = some name →
        env.mkdtemp = .ok () → env.writeFile = .ok () →
        callExcept env.compileText env.compileBytes = .error .timeoutExpired →
        (execute_java_code env code).1 =
          .ok ("", "Error: Code execution timed out (10 seconds limit)")) ∧
    (∀ (env : JavaRunEnv) (code : String) (pr cr : ProcResult) (name : String),
        probeExcept env.probeText env.probeBytes = .ok pr → pr.returncode = 0 →
        extractPublicClass code = some name →
        env.mkdtemp = .ok () → env.writeFile = .ok () →
        callExcept env.compileText env.compileBytes = .ok cr → cr.returncode = 0 →
        callExcept env.runText env.runBytes = .error .timeoutExpired →
        (execute_java_code env code).1 =
          .ok ("", "Error: Code execution timed out (10 seconds limit)")) := by
  refine ⟨fun env code h1 h2 => ?_, fun env code pr hp hrc h1 h2 => ?_,
    fun env code pr name hp hrc hx h1 h2 hc => ?_,
    fun env code pr cr name hp hrc hx h1 h2 hc hcrc hr => ?_⟩
  · simp [execute_python_code, execute_python_body, handleExec, h1, h2]
  · simp [execute_javascript_code, execute_javascript_body, handleExec, hp, hrc, h1, h2]
  · simp [execute_java_code, execute_java_body, handleExec, hp, hrc, hx, h1, h2, hc]
  · simp [execute_java_code, execute_java_body, handleExec, hp, hrc, hx, h1, h2, hc,
      hcrc, hr]

/-- Witness for C3: the timeout result at concrete environments — a
Python interpreter timeout and a Java run-step timeout (compile
succeeded, then the infinite-loop program exceeded the limit). -/
theorem C3_timeout_witness :
    (execute_python_code ⟨.ok (), .timedOut, .timedOut, .ok ()⟩
        "while True: pass").1 =
      .ok ("", "Error: Code execution timed out (10 seconds limit)") ∧
    (execute_java_code
        ⟨.completed ⟨"openjdk 17", "", 0⟩, .completed ⟨[], [], 0⟩, .ok (), .ok (),
          .completed ⟨"", "", 0⟩, .timedOut, .timedOut, .timedOut, .ok ()⟩
        "public class Loop { }").1 =
      .ok ("", "Error: Code execution timed out (10 seconds limit)") :=
  ⟨C3_timeout_fixed_message.1 _ "while True: pass" rfl rfl,
    C3_timeout_fixed_message.2.2.2
      ⟨.completed ⟨"openjdk 17", "", 0⟩, .completed ⟨[], [], 0⟩, .ok (), .ok (),
        .completed ⟨"", "", 0⟩, .timedOut, .timedOut, .timedOut, .ok ()⟩
      "public class Loop { }" ⟨"openjdk 17", "", 0⟩ ⟨"", "", 0⟩ "Loop" rfl rfl
      (by decide) rfl rfl rfl rfl rfl⟩

/-- C4: when the text-mode capture of the interpreter run raises
`UnicodeDecodeError`, `execute_python_code` reruns the process in bytes
mode and decodes both streams with invalid-sequence replacement instead
of failing — the result is still an ordinary `(stdout, stderr)` pair of
fully decoded text; and the replacement decoder substitutes one U+FFFD
for an invalid byte, and one U+FFFD for a whole truncated multi-byte
sequence (CPython's maximal-subpart rule: `b"\xe1\x80A"` decodes to
U+FFFD followed by `A`). -/
theorem C4_decode_fallback :
    (∀ (env : PyRunEnv) (code : String) (br : ByteResult),
        env.createTemp = .ok () → env.runText = .decodeError →
        env.runBytes = .completed br → env.unlink = .ok () →
        (execute_python_code env code).1 =
          .ok (decodeFieldOrEmpty br.stdoutBytes, decodeFieldOrEmpty br.stderrBytes)) ∧
    decodeUtf8Replace [0x68, 0xFF, 0x69] = String.mk ['h', replacementChar, 'i'] ∧
    decodeUtf8Replace [0xE1, 0x80, 0x41] = String.mk [replacementChar, 'A'] := by
  refine ⟨fun env code br h1 h2 h3 h4 => ?_, by decide, by decide⟩
  simp [execute_python_code, execute_python_body, handleExec, callExcept, h1, h2, h3, h4]

/-- Witness for C4: the bytes fallback at a concrete environment whose
child emitted an invalid byte on stdout. -/
theorem C4_decode_witness :
    (execute_python_code
        ⟨.ok (), .decodeError, .completed ⟨[0x68, 0xFF, 0x69], [], 0⟩, .ok ()⟩
        "print(b)").1 =
      .ok (decodeFieldOrEmpty [0x68, 0xFF, 0x69], decodeFieldOrEmpty []) :=
  C4_decode_fallback.1 _ "print(b)" ⟨[0x68, 0xFF, 0x69], [], 0⟩ rfl rfl rfl rfl

/-- C5: with the Java runtime present, a source without a
`public class <Name>` declaration makes `execute_java_code` fail fast
with the fixed compile-error message, before any temp directory is
created, any file written, or the compiler invoked. -/
theorem C5_java_no_public_class :
    ∀ (env : JavaRunEnv) (code : String) (pr : ProcResult),
      probeExcept env.probeText env.probeBytes = .ok pr → pr.returncode = 0 →
      extractPublicClass code = none →
      (execute_java_code env code).1 =
        .ok ("", "Error: No public class found in Java code") ∧
      Event.createTempDir ∉ (execute_java_code env code).2 ∧
      Event.writeSource ∉ (execute_java_code env code).2 ∧
      Event.invokeCompiler ∉ (execute_java_code env code).2 := by
  intro env code pr hp hrc hx
  have hres : execute_java_code env code =
      (.ok ("", "Error: No public class found in Java code"),
        probeEvents env.probeText) := by
    simp [execute_java_code, execute_java_body, handleExec, hp, hrc, hx]
  refine ⟨by simp [hres], ?_, ?_, ?_⟩ <;>
    · rw [hres]
      intro hmem
      have := probeEvents_mem hmem
      simp at this

/-- Witness for C5: a Java source declaring no public class. -/
theorem C5_java_no_public_class_witness :
    (execute_java_code
        ⟨.completed ⟨"openjdk 17", "", 0⟩, .completed ⟨[], [], 0⟩, .ok (), .ok (),
          .timedOut, .timedOut, .timedOut, .timedOut, .ok ()⟩
        "class Foo { }").1 =
      .ok ("", "Error: No public class found in Java code") :=
  (C5_java_no_public_class
    ⟨.completed ⟨"openjdk 17", "", 0⟩, .completed ⟨[], [], 0⟩, .ok (), .ok (),
      .timedOut, .timedOut, .timedOut, .timedOut, .ok ()⟩
    "class Foo { }" ⟨"openjdk 17", "", 0⟩ rfl rfl (by decide)).1

/-- C6 (amended): when the `node --version` probe completes with a
non-zero exit code, `execute_javascript_code` returns the fixed
tool-missing message at once; when the probe raises `FileNotFoundError`
(the binary absent from PATH), the outer handler returns
`"Error: " + str(e)` — an explanatory message, but not the fixed one.
In both cases the temp source file is never written and the runtime is
never invoked on it. -/
theorem C6_js_runtime_missing_amended :
    (∀ (env : JsRunEnv) (code : String) (pr : ProcResult),
      probeExcept env.probeText env.probeBytes = .ok pr → pr.returncode ≠ 0 →
      (execute_javascript_code env code).1 =
        .ok ("", "Error: Node.js is not installed or not in PATH") ∧
      Event.createTempFile ∉ (execute_javascript_code env code).2 ∧
      Event.invokeInterpreter ∉ (execute_javascript_code env code).2) ∧
    (∀ (env : JsRunEnv) (code : String) (m : String),
      probeExcept env.probeText env.probeBytes = .error (.fileNotFound m) →
      (execute_javascript_code env code).1 = .ok ("", "Error: " ++ m) ∧
      Event.createTempFile ∉ (execute_javascript_code env code).2 ∧
      Event.invokeInterpreter ∉ (execute_javascript_code env code).2) := by
  constructor
  · intro env code pr hp hrc
    have hres : execute_javascript_code env code =
        (.ok ("", "Error: Node.js is not installed or not in PATH"),
          probeEvents env.probeText) := by
      simp [execute_javascript_code, execute_javascript_body, handleExec, hp, hrc]
    refine ⟨by simp [hres], ?_, ?_⟩ <;>
      · rw [hres]
        intro hmem
        have := probeEvents_mem hmem
        simp at this
  · intro env code m hp
    have hres : execute_javascript_code env code =
        (.ok ("", "Error: " ++ m), probeEvents env.probeText) := by
      simp [execute_javascript_code, execute_javascript_body, handleExec, hp]
    refine ⟨by simp [hres], ?_, ?_⟩ <;>
      · rw [hres]
        intro hmem
        have := probeEvents_mem hmem
        simp at this

/-- Witness for C6: a probe exiting 1, and a probe raising
`FileNotFoundError`; both skip execution, with their respective
messages. -/
theorem C6_js_runtime_missing_witness :
    (execute_javascript_code
        ⟨.completed ⟨"", "node: not found", 1⟩, .completed ⟨[], [], 0⟩, .ok (),
          .timedOut, .timedOut, .ok ()⟩ "console.log(1)").1 =
      .ok ("", "Error: Node.js is not installed or not in PATH") ∧
    (execute_javascript_code
        ⟨.notFound "node missing", .completed ⟨[], [], 0⟩, .ok (),
          .timedOut, .timedOut, .ok ()⟩ "console.log(1)").1 =
      .ok ("", "Error: " ++ "node missing") :=
  ⟨(C6_js_runtime_missing_amended.1
      ⟨.completed ⟨"", "node: not found", 1⟩, .completed ⟨[], [], 0⟩, .ok (),
        .timedOut, .timedOut, .ok ()⟩
      "console.log(1)" ⟨"", "node: not found", 1⟩ rfl (by decide)).1,
    (C6_js_runtime_missing_amended.2
      ⟨.notFound "node missing", .completed ⟨[], [], 0⟩, .ok (),
        .timedOut, .timedOut, .ok ()⟩
      "console.log(1)" "node missing" rfl).1⟩

/-- Counterexample for C6 as stated: with the node binary absent from
PATH the probe raises `FileNotFoundError`, and the call returns the
handler message `"Error: [Errno 2] No such file or directory: node"` —
an explanatory message, but not the claimed fixed tool-missing one. -/
theorem C6_counterexample :
    (execute_javascript_code
        ⟨.notFound "[Errno 2] No such file or directory: node",
          .completed ⟨[], [], 0⟩, .ok (), .timedOut, .timedOut, .ok ()⟩
        "console.log(1)").1 =
      .ok ("", "Error: [Errno 2] No such file or directory: node") ∧
    (execute_javascript_code
        ⟨.notFound "[Errno 2] No such file or directory: node",
          .completed ⟨[], [], 0⟩, .ok (), .timedOut, .timedOut, .ok ()⟩
        "console.log(1)").1 ≠
      .ok ("", "Error: Node.js is not installed or not in PATH") := by decide

/-- C7: when the compiler step of `execute_java_code` completes with a
non-zero exit code, the function returns immediately with the compiler's
stderr wrapped in the fixed compile-error prefix, and the run step is
never invoked. -/
theorem C7_java_compile_error :
    ∀ (env : JavaRunEnv) (code : String) (pr cr : ProcResult) (name : String),
      probeExcept env.probeText env.probeBytes = .ok pr → pr.returncode = 0 →
      extractPublicClass code = some name →
      env.mkdtemp = .ok () → env.writeFile = .ok () →
      callExcept env.compileText env.compileBytes = .ok cr → cr.returncode ≠ 0 →
      (execute_java_code env code).1 =
        .ok ("", "Compilation Error: " ++ cr.stderr) ∧
      Event.invokeInterpreter ∉ (execute_java_code env code).2 := by
  intro env code pr cr name hp hrc hx h1 h2 hc hcrc
  have hres : execute_java_code env code =
      (.ok ("", "Compilation Error: " ++ cr.stderr),
        probeEvents env.probeText ++ Event.createTempDir :: Event.writeSource ::
          callEvents .invokeCompiler env.compileText) := by
    simp [execute_java_code, execute_java_body, handleExec, hp, hrc, hx, h1, h2, hc, hcrc]
  refine ⟨by simp [hres], ?_⟩
  rw [hres]
  intro hmem
  simp only [List.mem_append, List.mem_cons] at hmem
  rcases hmem with h | h | h | h
  · have := probeEvents_mem h
    simp at this
  · simp at h
  · simp at h
  · have := callEvents_mem h
    simp at this

/-- Witness for C7: a compiler run exiting 1 with a diagnostic. -/
theorem C7_java_compile_error_witness :
    (execute_java_code
        ⟨.completed ⟨"openjdk 17", "", 0⟩, .completed ⟨[], [], 0⟩, .ok (), .ok (),
          .completed ⟨"", "Foo.java:1: error: ; expected", 1⟩, .timedOut,
          .timedOut, .timedOut, .ok ()⟩
        "public class Foo { }").1 =
      .ok ("", "Compilation Error: " ++ "Foo.java:1: error: ; expected") :=
  (C7_java_compile_error
    ⟨.completed ⟨"openjdk 17", "", 0⟩, .completed ⟨[], [], 0⟩, .ok (), .ok (),
      .completed ⟨"", "Foo.java:1: error: ; expected", 1⟩, .timedOut,
      .timedOut, .timedOut, .ok ()⟩
    "public class Foo { }" ⟨"openjdk 17", "", 0⟩
    ⟨"", "Foo.java:1: error: ; expected", 1⟩ "Foo" rfl rfl (by decide) rfl rfl rfl
    (by decide)).1

/-- Fields of `radonTryBlock` when the cc call succeeds with exit code 0,
non-empty stdout, a parsed non-empty function listing, and the mi call
does not raise: the three cc statistics are set and no error key exists. -/
theorem radonTryBlock_cc_fields (env : RadonEnv) (r mr : ProcResult)
    (funcs : List RadonFunc)
    (hcc : callExcept env.ccText env.ccBytes = .ok r)
    (hrc : r.returncode = 0) (hso : r.stdout ≠ "")
    (hparse : env.ccParse = some (some funcs)) (hfne : funcs ≠ [])
    (hmi : callExcept env.miText env.miBytes = .ok mr) :
    (radonTryBlock env).complexity =
        some (listMeanRat (funcs.map fun f => f.complexity.getD 0)) ∧
    (radonTryBlock env).max_complexity =
        some (listMaxInt (funcs.map fun f => f.complexity.getD 0)) ∧
    (radonTryBlock env).function_count = some funcs.length ∧
    (radonTryBlock env).error = none := by
  have hmap : funcs.map (fun f => f.complexity.getD 0) ≠ [] := by
    simp [hfne]
  have hc1 : (r.returncode == 0 && r.stdout != "") = true := by
    simp [hrc, bne_iff_ne, hso]
  unfold radonTryBlock
  rw [hcc, hmi]
  simp only [hc1, hparse, if_true]
  simp only [hfne, hmap, ite_true, if_pos, ne_eq, not_false_eq_true]
  split <;> (try split) <;> simp [emptyComplexityData]

/-- C8 (amended): when the complexity tool's structured output parses to
a non-empty per-function listing (and the maintainability call does not
itself raise, which would trigger the fallback and overwrite
`function_count`), `analyze_python_code` reports `complexity` equal to
the arithmetic mean, `max_complexity` equal to the maximum, and
`function_count` equal to the length of the listing.  When the listing is
empty, the three keys are omitted from the complexity dict entirely
(provided the maintainability step succeeded, so no fallback runs) — they
are not reported as 0. -/
theorem C8_complexity_stats_amended :
    (∀ (env : AnalyzeEnv) (code : String) (r mr : ProcResult)
        (funcs : List RadonFunc) (res : AnalysisResult),
      env.createTemp = .ok () → env.unlink = .ok () →
      callExcept env.radon.ccText env.radon.ccBytes = .ok r →
      r.returncode = 0 → r.stdout ≠ "" →
      env.radon.ccParse = some (some funcs) → funcs ≠ [] →
      callExcept env.radon.miText env.radon.miBytes = .ok mr →
      (analyze_python_code env code).1 = .ok res →
      res.complexity.complexity =
          some (listMeanRat (funcs.map fun f => f.complexity.getD 0)) ∧
      res.complexity.max_complexity =
          some (listMaxInt (funcs.map fun f => f.complexity.getD 0)) ∧
      res.complexity.function_count = some funcs.length) ∧
    (∀ (env : AnalyzeEnv) (code : String) (r mr : ProcResult) (mi : Option Rat)
        (res : AnalysisResult),
      env.createTemp = .ok () → env.unlink = .ok () →
      callExcept env.radon.ccText env.radon.ccBytes = .ok r →
      r.returncode = 0 → r.stdout ≠ "" →
      env.radon.ccParse = some (some []) →
      callExcept env.radon.miText env.radon.miBytes = .ok mr →
      mr.returncode = 0 → mr.stdout ≠ "" →
      env.radon.miParse = some (some mi) →
      (analyze_python_code env code).1 = .ok res →
      res.complexity.complexity = none ∧
      res.complexity.max_complexity = none ∧
      res.complexity.function_count = none) := by
  constructor
  · intro env code r mr funcs res h1 h2 hcc hrc hso hparse hfne hmi hres
    obtain ⟨f1, f2, f3, f4⟩ :=
      radonTryBlock_cc_fields env.radon r mr funcs hcc hrc hso hparse hfne hmi
    have hcx : run_radon_analysis env.radon = radonTryBlock env.radon := by
      unfold run_radon_analysis
      have : (radonTryBlock env.radon).isEmptyDict = false := by
        unfold ComplexityData.isEmptyDict
        simp [f1]
      simp [this, f4]
    simp only [analyze_python_code, h1, h2, hcx] at hres
    simp only [Except.ok.injEq] at hres
    subst hres
    exact ⟨f1, f2, f3⟩
  · intro env code r mr mi res h1 h2 hcc hrc hso hparse hmi hmrc hmso hmparse hres
    have hcx : run_radon_analysis env.radon =
        { emptyComplexityData with maintainability := some (mi.getD 0) } := by
      unfold run_radon_analysis radonTryBlock
      rw [hcc, hmi]
      simp [hrc, hso, hparse, hmrc, hmso, hmparse, bne_iff_ne,
        ComplexityData.isEmptyDict, emptyComplexityData]
    simp only [analyze_python_code, h1, h2, hcx] at hres
    simp only [Except.ok.injEq] at hres
    subst hres
    simp [emptyComplexityData]

/-- Witness for C8: the statistics at the concrete two-function listing. -/
theorem C8_complexity_stats_witness :
    c8WitRes.complexity.complexity =
        some (listMeanRat (([⟨some 3⟩, ⟨some 5⟩] : List RadonFunc).map
          fun f => f.complexity.getD 0)) ∧
    c8WitRes.complexity.max_complexity =
        some (listMaxInt (([⟨some 3⟩, ⟨some 5⟩] : List RadonFunc).map
          fun f => f.complexity.getD 0)) ∧
    c8WitRes.complexity.function_count =
        some ([⟨some 3⟩, ⟨some 5⟩] : List RadonFunc).length :=
  C8_complexity_stats_amended.1 c8WitEnv "x = 1" ⟨"cc-json", "", 0⟩
    ⟨"mi-json", "", 0⟩ [⟨some 3⟩, ⟨some 5⟩] c8WitRes rfl rfl rfl rfl
    (by decide) rfl (by decide) rfl rfl

/-- Counterexample for C8 as stated: with an empty function listing the
three statistics are absent from the complexity report (`none`), not
reported as 0. -/
theorem C8_complexity_stats_counterexample :
    ((analyze_python_code c8CounterEnv "x = 1").1.map fun res =>
        (res.complexity.complexity, res.complexity.max_complexity,
          res.complexity.function_count)) = .ok (none, none, none) := by decide

/-- C9: when the radon cc invocation raises (tool missing, timeout, or
any other exception — which also skips the mi invocation, both sitting in
one `try`), `analyze_python_code` falls back to the self-contained AST
analysis: the complexity report carries the function-definition count,
class-definition count and control-flow-construct count of the parsed
source, `estimated_complexity` equal to control-flow count plus function
count, and is marked `analysis_type = "basic_ast"`. -/
theorem C9_basic_fallback :
    ∀ (env : AnalyzeEnv) (code : String) (e : PyExn) (tree : PyNode)
      (res : AnalysisResult),
      env.createTemp = .ok () → env.unlink = .ok () →
      callExcept env.radon.ccText env.radon.ccBytes = .error e →
      env.radon.ast = .parsed tree →
      (analyze_python_code env code).1 = .ok res →
      res.complexity.analysis_type = some "basic_ast" ∧
      res.complexity.function_count = some (functionDefCount tree) ∧
      res.complexity.class_count = some (classDefCount tree) ∧
      res.complexity.control_flow_count = some (controlFlowCount tree) ∧
      res.complexity.estimated_complexity =
        some (controlFlowCount tree + functionDefCount tree) := by
  intro env code e tree res h1 h2 hcc hast hres
  have hcx : run_radon_analysis env.radon =
      updateBasic { emptyComplexityData with error := some (radonErrMsg e) }
        (basic_ast_analysis (.parsed tree)) := by
    unfold run_radon_analysis radonTryBlock
    rw [hcc, hast]
    simp [ComplexityData.isEmptyDict, emptyComplexityData]
  simp only [analyze_python_code, h1, h2, hcx] at hres
  simp only [Except.ok.injEq] at hres
  subst hres
  simp [updateBasic, basic_ast_analysis, emptyComplexityData]

/-- Witness for C9: the fallback report for the one-function,
one-conditional fixture tree. -/
theorem C9_basic_fallback_witness :
    c9WitRes.complexity.analysis_type = some "basic_ast" ∧
    c9WitRes.complexity.function_count =
      some (functionDefCount (.other [.functionDef [.ifStmt [.other []] []]])) ∧
    c9WitRes.complexity.class_count =
      some (classDefCount (.other [.functionDef [.ifStmt [.other []] []]])) ∧
    c9WitRes.complexity.control_flow_count =
      some (controlFlowCount (.other [.functionDef [.ifStmt [.other []] []]])) ∧
    c9WitRes.complexity.estimated_complexity =
      some (controlFlowCount (.other [.functionDef [.ifStmt [.other []] []]]) +
        functionDefCount (.other [.functionDef [.ifStmt [.other []] []]])) :=
  C9_basic_fallback c9WitEnv "x = 1" (.fileNotFound "radon")
    (.other [.functionDef [.ifStmt [.other []] []]]) c9WitRes rfl rfl rfl rfl
    (by decide)

/-- C10: whenever the analysis result reports `formatting_needed = false`
— empty formatter diff, or the formatter binary missing, timing out, or
raising anywhere — its `formatted_code` field is exactly the input source
text. -/
theorem C10_format_identity :
    ∀ (env : AnalyzeEnv) (code : String) (res : AnalysisResult),
      (analyze_python_code env code).1 = .ok res →
      res.formatting_needed = false →
      res.formatted_code = code := by
  intro env code res hres hfn
  cases h1 : env.createTemp with
  | error m => simp [analyze_python_code, h1] at hres
  | ok u =>
    cases u
    cases h2 : env.unlink with
    | error m => simp [analyze_python_code, h1, h2] at hres
    | ok v =>
      cases v
      simp only [analyze_python_code, h1, h2] at hres
      simp only [Except.ok.injEq] at hres
      subst hres
      simp only at hfn ⊢
      exact run_black_needed_false env.black code hfn

/-- Witness for C10: an empty diff leaves the source unchanged. -/
theorem C10_format_identity_witness :
    (⟨[], false, "x=1",
        ⟨none, none, none, some 50, none, none, none, none, none⟩⟩ :
      AnalysisResult).formatted_code = "x=1" :=
  C10_format_identity c10WitEnv "x=1"
    ⟨[], false, "x=1", ⟨none, none, none, some 50, none, none, none, none, none⟩⟩
    (by decide) rfl

end CodingMentor
